import Mathlib

/-!
Verification of the shadPS4 command-line front end (argument interpreter and
game-location resolver) against its specification.

The definitions below are a shallow embedding of:
  - src/common/arg_parser.h / src/common/arg_parser.cpp  (ArgParser)
  - src/core/game_util.cpp                               (ResolveGameFolder, ParseFullscreenParam)
  - src/main.cpp                                         (ResolveGamePath, the game-path check in main)

Filesystem queries are modelled by an explicit oracle structure `FSModel`
(the code's std::filesystem calls), and the external directory scan
`Common::FS::FindGameByID` (not part of the shown sources) is a function
parameter.  Process termination via exit() is modelled by the
`ParseOutcome.exited` constructor carrying the exit code and the state at the
moment of termination; text printed to stdout/stderr is modelled as a list of
output events accumulated in the state.
-/

namespace ShadPS4

/-- Filesystem oracle: the results of std::filesystem::exists,
is_regular_file and is_directory on string paths. -/
structure FSModel where
  fexists : String → Bool
  isFile : String → Bool
  isDir : String → Bool

/-- Output events: PrintHelp's fixed usage text (modelled as one event) and
any other line printed to stdout/stderr. -/
inductive OutEvent where
  | helpText : OutEvent
  | msg : String → OutEvent
deriving DecidableEq, Repr

/-- Config::ConfigMode values set by --config-clean / --config-global. -/
inductive ConfigMode where
  | Clean : ConfigMode
  | Global : ConfigMode
deriving DecidableEq, Repr

/-- ArgParser::ParsedArgs (arg_parser.h lines 28-35).  The C++ game_path is a
std::string that is only ever written together with has_game_argument; it is
modelled as an Option that is some exactly when an assignment happened. -/
structure ParsedArgs where
  has_game_argument : Bool := false
  game_path : Option String := none
  game_args : List String := []
  game_folder : Option String := none
  wait_for_debugger : Bool := false
  wait_pid : Option Int := none
deriving DecidableEq, Repr

/-- Process-wide state mutated by the registered callbacks and the inline
branches of Parse (MntPoints::ignore_game_patches, Log::SetAppend,
Config::setConfigMode, Config::setShowFpsCounter, Config::setIsFullscreen,
MemoryPatcher::patch_file, Config::addGameInstallDir,
Config::setAddonInstallDir). -/
structure EnvState where
  ignore_game_patches : Bool := false
  log_append : Bool := false
  config_mode : Option ConfigMode := none
  show_fps : Bool := false
  is_fullscreen : Option Bool := none
  patch_file : Option String := none
  added_game_dir : Option String := none
  addon_dir : Option String := none
deriving DecidableEq, Repr

/-- Full parser state: the ParsedArgs being built, the global environment,
and the chronological list of printed output events. -/
structure PState where
  result : ParsedArgs := {}
  env : EnvState := {}
  out : List OutEvent := []
deriving DecidableEq, Repr

/-- State at the start of Parse: result = ParsedArgs{} and untouched globals. -/
def initPState : PState := {}

/-- Append one printed output event. -/
def pushOut (st : PState) (e : OutEvent) : PState :=
  { st with out := st.out ++ [e] }

/-- Outcome of running Parse: either the process terminated via exit(code)
(carrying the state at that moment), or Parse returned the final state. -/
inductive ParseOutcome where
  | exited : Nat → PState → ParseOutcome
  | returned : PState → ParseOutcome
deriving DecidableEq, Repr

/-- Projection of the state out of either outcome. -/
def outcomeState : ParseOutcome → PState
  | .exited _ st => st
  | .returned st => st

/-- True when Parse returned (the process was not terminated). -/
def ParseOutcome.isReturned : ParseOutcome → Bool
  | .exited _ _ => false
  | .returned _ => true

/-- ArgParser::ValidatePath (arg_parser.cpp lines 46-60). -/
def ValidatePath (fs : FSModel) (path : String) (is_file : Bool) : Option String :=
  if is_file then
    if fs.isFile path then some path else none
  else
    if fs.isDir path then some path else none

/-- Whitespace characters recognized by the "C" locale isspace used by
std::stoi/strtol. -/
def isSpaceChar (c : Char) : Bool :=
  c = ' ' || c = '\t' || c = '\n' || c = '\x0b' || c = '\x0c' || c = '\r'

/-- Numeric value of a decimal digit string. -/
def digitsToNat (ds : List Char) : Nat :=
  ds.foldl (fun acc c => acc * 10 + (c.toNat - 48)) 0

/-- INT_MAX for the int result of std::stoi. -/
def intMax : Int := 2147483647

/-- INT_MIN for the int result of std::stoi. -/
def intMin : Int := -2147483648

/-- Digit-consuming phase of std::stoi: the longest leading run of decimal
digits gives the value; no digits means std::invalid_argument, a value
outside int range means std::out_of_range; both are modelled as none (Parse
catches both via std::exception and exits). -/
def stoiFrom (neg : Bool) (cs : List Char) : Option Int :=
  let ds := cs.takeWhile Char.isDigit
  if ds.isEmpty then none
  else
    let mag : Int := (digitsToNat ds : Nat)
    let v : Int := if neg then -mag else mag
    if v < intMin ∨ intMax < v then none else some v

/-- std::stoi with base 10: skip leading whitespace, optional single sign,
then digits per stoiFrom. -/
def stoi (s : String) : Option Int :=
  match s.data.dropWhile isSpaceChar with
  | '-' :: cs => stoiFrom true cs
  | '+' :: cs => stoiFrom false cs
  | cs => stoiFrom false cs

/-- Effects registered in arg_map (ArgParser::RegisterArguments,
arg_parser.cpp lines 62-140).  Callbacks whose work is deferred to inline
branches of Parse are noopEff ("Will be handled in Parse()"). -/
inductive MapEffect where
  | helpEff | noopEff | ignorePatchEff | logAppendEff
  | configCleanEff | configGlobalEff | waitDebuggerEff | showFpsEff
deriving DecidableEq, Repr

/-- Result of invoking a registered callback: the help callback terminates
the process, every other one lets the scan continue. -/
inductive EffectRes where
  | exitNow : Nat → PState → EffectRes
  | keepGoing : PState → EffectRes
deriving DecidableEq, Repr

/-- Lookup in arg_map as populated by RegisterArguments. -/
def argMapFind (s : String) : Option MapEffect :=
  if s = "-h" ∨ s = "--help" then some .helpEff
  else if s = "-g" ∨ s = "--game" then some .noopEff
  else if s = "-p" ∨ s = "--patch" then some .noopEff
  else if s = "-i" ∨ s = "--ignore-game-patch" then some .ignorePatchEff
  else if s = "-f" ∨ s = "--fullscreen" then some .noopEff
  else if s = "--add-game-folder" then some .noopEff
  else if s = "--set-addon-folder" then some .noopEff
  else if s = "--log-append" then some .logAppendEff
  else if s = "--config-clean" then some .configCleanEff
  else if s = "--config-global" then some .configGlobalEff
  else if s = "--override-root" then some .noopEff
  else if s = "--wait-for-debugger" then some .waitDebuggerEff
  else if s = "--wait-for-pid" then some .noopEff
  else if s = "--show-fps" then some .showFpsEff
  else none

/-- Run a registered callback (the bodies from RegisterArguments).  The help
callback prints the usage text and calls exit(0). -/
def applyMapEffect : MapEffect → PState → EffectRes
  | .helpEff, st => .exitNow 0 (pushOut st .helpText)
  | .noopEff, st => .keepGoing st
  | .ignorePatchEff, st => .keepGoing { st with env := { st.env with ignore_game_patches := true } }
  | .logAppendEff, st => .keepGoing { st with env := { st.env with log_append := true } }
  | .configCleanEff, st => .keepGoing { st with env := { st.env with config_mode := some .Clean } }
  | .configGlobalEff, st => .keepGoing { st with env := { st.env with config_mode := some .Global } }
  | .waitDebuggerEff, st => .keepGoing { st with result := { st.result with wait_for_debugger := true } }
  | .showFpsEff, st => .keepGoing { st with env := { st.env with show_fps := true } }

/-- Test of cur_arg[0] != '-' (arg_parser.cpp line 290); on an empty
std::string, operator[] at index 0 yields the null character, not '-'. -/
def firstCharDash (s : String) : Bool :=
  s.data.head? == some '-'

/-- Condition of the legacy inference branch (arg_parser.cpp line 285):
whether the token after the current one exists and is "--".  In the list
embedding, rest holds exactly the tokens after the current one. -/
def legacyFollowedByDashDash (rest : List String) : Bool :=
  match rest with
  | nxt :: _ => nxt == "--"
  | [] => false

/-- Result of the tail of one loop iteration (arg_parser.cpp lines 270-298):
break out of the scan, or continue with an updated state. -/
inductive TailRes where
  | brk : PState → TailRes
  | cont : PState → TailRes
deriving DecidableEq, Repr

/-- The "--" separator handling, positional inference and unknown-argument
warning (arg_parser.cpp lines 270-298), reached when no earlier branch
consumed the current token.  cur is the current token and rest the tokens
after it (so rest.isEmpty mirrors i == argc - 1). -/
def parseTail (st : PState) (cur : String) (rest : List String) : TailRes :=
  if cur = "--" then
    match rest with
    | [] => .brk (pushOut st (.msg "Warning: -- is set, but no game arguments are added!\n"))
    | _ :: _ => .brk { st with result := { st.result with game_args := st.result.game_args ++ rest } }
  else if rest.isEmpty && !st.result.has_game_argument then
    if legacyFollowedByDashDash rest then
      .cont { st with result := { st.result with game_path := some cur, has_game_argument := true } }
    else if firstCharDash cur = false then
      .cont { st with result := { st.result with game_path := some cur, has_game_argument := true } }
    else
      .cont (pushOut st (.msg ("Unknown argument: " ++ cur ++ ", see --help for info.\n")))
  else
    .cont (pushOut st (.msg ("Unknown argument: " ++ cur ++ ", see --help for info.\n")))

/-- Result of one full loop iteration: the process exits, the scan breaks
(Parse returns), or the scan continues; the Bool records whether the
iteration consumed the following token as a value (the ++i inside a
branch). -/
inductive IterRes where
  | halted : Nat → PState → IterRes
  | broke : PState → IterRes
  | next : PState → Bool → IterRes
deriving DecidableEq, Repr

/-- Embed a TailRes into an IterRes (tail branches never consume a value). -/
def tailToIter : TailRes → IterRes
  | .brk st => .broke st
  | .cont st => .next st false

/-- Message printed when a value-taking flag has no following token. -/
def missingArgMsg (flag : String) : OutEvent :=
  .msg ("Error: Missing argument for " ++ flag ++ "\n")

/-- One iteration of the scan loop in ArgParser::Parse (arg_parser.cpp lines
150-298) on current token cur with remaining tokens rest. -/
def parseIter (fs : FSModel) (st : PState) (cur : String) (rest : List String) : IterRes :=
  if cur = "-g" ∨ cur = "--game" then
    match rest with
    | v :: _ => .next { st with result := { st.result with game_path := some v, has_game_argument := true } } true
    | [] => .halted 1 (pushOut st (missingArgMsg cur))
  else if cur = "-p" ∨ cur = "--patch" then
    match rest with
    | v :: _ => .next { st with env := { st.env with patch_file := some v } } true
    | [] => .halted 1 (pushOut st (missingArgMsg cur))
  else if cur = "-f" ∨ cur = "--fullscreen" then
    match rest with
    | [] => .halted 1 (pushOut st (missingArgMsg cur))
    | v :: _ =>
      if v = "true" then
        .next { st with env := { st.env with is_fullscreen := some true } } true
      else if v = "false" then
        .next { st with env := { st.env with is_fullscreen := some false } } true
      else
        .halted 1 (pushOut st (.msg ("Error: Invalid argument for " ++ cur ++ ". Use \x27true\x27 or \x27false\x27.\n")))
  else if cur = "--add-game-folder" then
    match rest with
    | [] => .halted 1 (pushOut st (missingArgMsg cur))
    | v :: _ =>
      match ValidatePath fs v false with
      | some validated =>
        .halted 0 (pushOut { st with env := { st.env with added_game_dir := some validated } }
          (.msg "Game folder successfully saved.\n"))
      | none => .halted 1 (pushOut st (.msg ("Error: File does not exist: " ++ v ++ "\n")))
  else if cur = "--set-addon-folder" then
    match rest with
    | [] => .halted 1 (pushOut st (missingArgMsg cur))
    | v :: _ =>
      match ValidatePath fs v false with
      | some validated =>
        .halted 0 (pushOut { st with env := { st.env with addon_dir := some validated } }
          (.msg "Addon folder successfully saved.\n"))
      | none => .halted 1 (pushOut st (.msg ("Error: File does not exist: " ++ v ++ "\n")))
  else if cur = "--override-root" then
    match rest with
    | [] => .halted 1 (pushOut st (missingArgMsg cur))
    | v :: _ =>
      if fs.fexists v && fs.isDir v then
        .next { st with result := { st.result with game_folder := some v } } true
      else
        .halted 1 (pushOut st (.msg ("Error: Folder does not exist: " ++ v ++ "\n")))
  else if cur = "--wait-for-pid" then
    match rest with
    | [] => .halted 1 (pushOut st (missingArgMsg cur))
    | v :: _ =>
      match stoi v with
      | some n => .next { st with result := { st.result with wait_pid := some n } } true
      | none => .halted 1 (pushOut st (.msg "Error: Invalid PID argument\n"))
  else
    match argMapFind cur with
    | some eff =>
      if cur ≠ "-h" ∧ cur ≠ "--help" then
        match applyMapEffect eff st with
        | .exitNow code st2 => .halted code st2
        | .keepGoing st2 => .next st2 false
      else tailToIter (parseTail st cur rest)
    | none => tailToIter (parseTail st cur rest)

/-- The scan loop of ArgParser::Parse over the tokens after the program
name.  When an iteration consumed the following token as a value, the scan
resumes after it; the (consumed, empty-rest) combination cannot arise, since
parseIter only reports a consumed value after matching a nonempty rest. -/
def parseLoop (fs : FSModel) : PState → List String → ParseOutcome
  | st, [] => .returned st
  | st, cur :: rest =>
    match parseIter fs st cur rest with
    | .halted code st2 => .exited code st2
    | .broke st2 => .returned st2
    | .next st2 b =>
      match b, rest with
      | false, r => parseLoop fs st2 r
      | true, [] => .returned st2
      | true, _ :: rest2 => parseLoop fs st2 rest2

/-- ArgParser::Parse (arg_parser.cpp lines 142-301) on the full argv list
(program name first): reset result, print help and exit(1) when argc == 1,
otherwise run the scan loop over the remaining tokens. -/
def parseRun (fs : FSModel) (argv : List String) : ParseOutcome :=
  if argv.length = 1 then .exited 1 (pushOut initPState .helpText)
  else parseLoop fs initPState argv.tail

/-- Variant of parseTail with the unreachable legacy inference branch
(arg_parser.cpp lines 285-289) removed, keeping only the reachable rule that
a trailing bare token becomes the game path. -/
def parseTailReachable (st : PState) (cur : String) (rest : List String) : TailRes :=
  if cur = "--" then
    match rest with
    | [] => .brk (pushOut st (.msg "Warning: -- is set, but no game arguments are added!\n"))
    | _ :: _ => .brk { st with result := { st.result with game_args := st.result.game_args ++ rest } }
  else if rest.isEmpty && !st.result.has_game_argument then
    if firstCharDash cur = false then
      .cont { st with result := { st.result with game_path := some cur, has_game_argument := true } }
    else
      .cont (pushOut st (.msg ("Unknown argument: " ++ cur ++ ", see --help for info.\n")))
  else
    .cont (pushOut st (.msg ("Unknown argument: " ++ cur ++ ", see --help for info.\n")))

/-- Reachability of a scan configuration: ScanReaches fs st l st1 l1 holds
when the loop, started at state st with remaining tokens l, arrives (through
zero or more continuing iterations) at state st1 with remaining tokens l1,
about to process the head of l1. -/
inductive ScanReaches (fs : FSModel) : PState → List String → PState → List String → Prop where
  | refl (st : PState) (l : List String) : ScanReaches fs st l st l
  | step {st : PState} {cur : String} {rest : List String} {st2 : PState} {b : Bool}
      {st3 : PState} {l3 : List String}
      (hiter : parseIter fs st cur rest = .next st2 b)
      (htail : ScanReaches fs st2 (if b then rest.tail else rest) st3 l3) :
      ScanReaches fs st (cur :: rest) st3 l3

/-- Filesystem oracle on which every query is false (no existing entries). -/
def noFS : FSModel := ⟨fun _ => false, fun _ => false, fun _ => false⟩

section GameUtil

/-- Index of the last occurrence of a character, accumulator form
(std::string::rfind on a single character). -/
def rfindAux : List Char → Char → Nat → Option Nat → Option Nat
  | [], _, _, acc => acc
  | c :: cs, t, i, acc => rfindAux cs t (i + 1) (if c = t then some i else acc)

/-- std::string::rfind(c): position of the last occurrence of c, none when
absent (npos). -/
def rfindChar (s : String) (t : Char) : Option Nat :=
  rfindAux s.data t 0 none

/-- std::string::ends_with, on the character lists of the two strings. -/
def endsWithStr (s suffixStr : String) : Bool :=
  suffixStr.data.isSuffixOf s.data

/-- std::string::substr(0, pos): the first pos characters; substr(0, npos)
is the whole string. -/
def substrTo (s : String) : Option Nat → String
  | some k => ⟨s.data.take k⟩
  | none => s

/-- Core::GameUtil::ResolveGameFolder (game_util.cpp lines 10-29), with
filesystem paths modelled as lists of components: parent_path drops the last
component, filename is the last component, and path / name appends a
component.  is_directory is the filesystem oracle on component paths. -/
def ResolveGameFolder (is_directory : List String → Bool) (file : List String)
    (provided_folder : Option (List String)) : List String :=
  match provided_folder with
  | some f => f
  | none =>
    let game_folder := file.dropLast
    let game_folder_name := (game_folder.getLast?).getD ""
    if endsWithStr game_folder_name "-UPDATE" || endsWithStr game_folder_name "-patch" then
      let base_name := substrTo game_folder_name (rfindChar game_folder_name '-')
      let base_path := game_folder.dropLast ++ [base_name]
      if is_directory base_path then base_path else game_folder
    else game_folder

/-- Core::GameUtil::ParseFullscreenParam (game_util.cpp lines 57-64). -/
def ParseFullscreenParam (param : String) : Option Bool :=
  if param = "true" then some true
  else if param = "false" then some false
  else none

end GameUtil

section MainResolve

/-- Depth bound passed to the install-directory scan (main.cpp line 54). -/
def max_depth : Nat := 5

/-- Search of the configured install directories in order (main.cpp lines
55-59): the external scan Common::FS::FindGameByID is a function parameter
find taking a directory, the game ID and the depth bound; the first
directory whose scan yields a path wins. -/
def searchInstallDirs (find : String → String → Nat → Option String)
    (dirs : List String) (id : String) : Option String :=
  match dirs with
  | [] => none
  | d :: rest =>
    match find d id max_depth with
    | some p => some p
    | none => searchInstallDirs find rest id

/-- ResolveGamePath (main.cpp lines 45-63): an existing path is returned
unchanged; otherwise the install directories are searched, and when nothing
matches the raw identifier itself is returned (the caller detects the
failure). -/
def ResolveGamePath (fs : FSModel) (find : String → String → Nat → Option String)
    (dirs : List String) (game_path : String) : String :=
  if fs.fexists game_path then game_path
  else
    match searchInstallDirs find dirs game_path with
    | some p => p
    | none => game_path

/-- Game-path validation fragment of main (main.cpp lines 112-117): resolve,
then re-check existence of the returned path; on failure print an error
referencing the original identifier and return exit code 1. -/
def mainResolveAndCheck (fs : FSModel) (find : String → String → Nat → Option String)
    (dirs : List String) (game_path : String) : Except (Nat × String) String :=
  let eboot_path := ResolveGamePath fs find dirs game_path
  if fs.fexists eboot_path then .ok eboot_path
  else .error (1, "Error: Game ID or file path not found: " ++ game_path ++ "\n")

end MainResolve

/-- Modelled from the spec: the claim's strict notion of a base-10 integer
value (the whole token is an optional sign followed by one or more decimal
digits), used to compare the spec's wording with the std::stoi behaviour of
the code. -/
def isBase10Integer (s : String) : Bool :=
  let cs := match s.data with
    | '-' :: r => r
    | '+' :: r => r
    | r => r
  !cs.isEmpty && cs.all Char.isDigit

/-!
Helper lemmas: a case analysis of one scan iteration, recording how the
fields relevant to the claims (game_args, has_game_argument, game_path)
evolve in every branch.
-/

set_option maxHeartbeats 1000000

/-- sibling path computed for an update or patch folder -/
def updateSibling (file : List String) : List String :=
  let game_folder_name := ((file.dropLast).getLast?).getD ""
  file.dropLast.dropLast ++ [substrTo game_folder_name (rfindChar game_folder_name '-')]

/-- The fields has_game_argument, game_path and game_args are all untouched
between two states. -/
def ResPreserved (st st2 : PState) : Prop :=
  st2.result.game_args = st.result.game_args ∧
  st2.result.has_game_argument = st.result.has_game_argument ∧
  st2.result.game_path = st.result.game_path

/-- Field evolution of the tail branches: a break happens only on the "--"
token and appends exactly the remaining tokens to game_args; a continue
either leaves the tracked fields alone or sets the game path to the current
token together with has_game_argument. -/
def TailOK (st : PState) (cur : String) (rest : List String) : TailRes → Prop
  | .brk st2 => cur = "--" ∧
      st2.result.game_args = st.result.game_args ++ rest ∧
      st2.result.has_game_argument = st.result.has_game_argument ∧
      st2.result.game_path = st.result.game_path
  | .cont st2 =>
      st2.result.game_args = st.result.game_args ∧
      (ResPreserved st st2 ∨
       (st2.result.has_game_argument = true ∧ st2.result.game_path = some cur))

/-- Field evolution of the registered callbacks: only the help callback
terminates the process, with exit code 0, and no callback touches the
tracked fields. -/
def EffectOK (st : PState) : EffectRes → Prop
  | .exitNow code st2 => code = 0 ∧ ResPreserved st st2
  | .keepGoing st2 => ResPreserved st st2

/-- Field evolution of a full scan iteration: an exit leaves the tracked
fields alone; a break happens only on "--" and appends exactly the remaining
tokens to game_args; a continue consumes a value only when a following token
exists, never changes game_args and changes the game path only by setting
it. -/
def IterOK (st : PState) (cur : String) (rest : List String) : IterRes → Prop
  | .halted _ st2 => ResPreserved st st2
  | .broke st2 => cur = "--" ∧
      st2.result.game_args = st.result.game_args ++ rest ∧
      st2.result.has_game_argument = st.result.has_game_argument ∧
      st2.result.game_path = st.result.game_path
  | .next st2 b => (b = true → rest ≠ []) ∧
      st2.result.game_args = st.result.game_args ∧
      (ResPreserved st st2 ∨
       (st2.result.has_game_argument = true ∧ st2.result.game_path.isSome = true))

theorem tail_cases (st : PState) (cur : String) (rest : List String) :
    TailOK st cur rest (parseTail st cur rest) := by
  unfold parseTail
  repeat' split
  all_goals simp_all [TailOK, ResPreserved, pushOut]

theorem effect_cases (eff : MapEffect) (st : PState) :
    EffectOK st (applyMapEffect eff st) := by
  cases eff <;> simp [applyMapEffect, EffectOK, ResPreserved, pushOut]

theorem effect_exit {eff : MapEffect} {st : PState} {c : Nat} {st2 : PState}
    (h : applyMapEffect eff st = .exitNow c st2) : ResPreserved st st2 := by
  have hc := effect_cases eff st
  rw [h] at hc
  exact hc.2

theorem effect_keep {eff : MapEffect} {st st2 : PState}
    (h : applyMapEffect eff st = .keepGoing st2) : ResPreserved st st2 := by
  have hc := effect_cases eff st
  rw [h] at hc
  exact hc

theorem tailToIter_ok (st : PState) (cur : String) (rest : List String) :
    IterOK st cur rest (tailToIter (parseTail st cur rest)) := by
  have h := tail_cases st cur rest
  cases htr : parseTail st cur rest with
  | brk st2 =>
    rw [htr] at h
    exact ⟨h.1, h.2.1, h.2.2.1, h.2.2.2⟩
  | cont st2 =>
    rw [htr] at h
    refine ⟨by simp, h.1, ?_⟩
    rcases h.2 with hp | ⟨ha, hb⟩
    · exact Or.inl hp
    · exact Or.inr ⟨ha, by simp [hb]⟩

theorem iter_cases (fs : FSModel) (st : PState) (cur : String) (rest : List String) :
    IterOK st cur rest (parseIter fs st cur rest) := by
  unfold parseIter
  repeat' split
  all_goals try exact tailToIter_ok st cur rest
  all_goals try (rename_i heff; first
    | exact effect_exit heff
    | exact ⟨by simp, (effect_keep heff).1, Or.inl (effect_keep heff)⟩)
  all_goals simp_all [IterOK, ResPreserved, pushOut]

theorem iter_halted_props {fs : FSModel} {st : PState} {cur : String} {rest : List String}
    {c : Nat} {st2 : PState} (h : parseIter fs st cur rest = .halted c st2) :
    ResPreserved st st2 := by
  have hc := iter_cases fs st cur rest
  rw [h] at hc
  exact hc

theorem iter_broke_props {fs : FSModel} {st : PState} {cur : String} {rest : List String}
    {st2 : PState} (h : parseIter fs st cur rest = .broke st2) :
    cur = "--" ∧ st2.result.game_args = st.result.game_args ++ rest ∧
    st2.result.has_game_argument = st.result.has_game_argument ∧
    st2.result.game_path = st.result.game_path := by
  have hc := iter_cases fs st cur rest
  rw [h] at hc
  exact hc

theorem iter_next_props {fs : FSModel} {st : PState} {cur : String} {rest : List String}
    {st2 : PState} {b : Bool} (h : parseIter fs st cur rest = .next st2 b) :
    (b = true → rest ≠ []) ∧ st2.result.game_args = st.result.game_args ∧
    (ResPreserved st st2 ∨
     (st2.result.has_game_argument = true ∧ st2.result.game_path.isSome = true)) := by
  have hc := iter_cases fs st cur rest
  rw [h] at hc
  exact hc

theorem scan_nil {fs : FSModel} {st st1 : PState} {l1 : List String}
    (h : ScanReaches fs st [] st1 l1) : st1 = st ∧ l1 = [] := by
  cases h
  exact ⟨rfl, rfl⟩

theorem scan_eval {fs : FSModel} {st : PState} {l : List String} {st1 : PState}
    {l1 : List String} (h : ScanReaches fs st l st1 l1) :
    parseLoop fs st l = parseLoop fs st1 l1 := by
  induction h with
  | refl st l => rfl
  | @step st cur rest st2 b st3 l3 hiter htail ih =>
    cases b with
    | false =>
      have hout : parseLoop fs st (cur :: rest) = parseLoop fs st2 rest := by
        simp [parseLoop, hiter]
      rw [hout]
      simpa using ih
    | true =>
      have hne : rest ≠ [] := (iter_next_props hiter).1 rfl
      cases rest with
      | nil => exact absurd rfl hne
      | cons r rest2 =>
        have hout : parseLoop fs st (cur :: r :: rest2) = parseLoop fs st2 rest2 := by
          simp [parseLoop, hiter]
        rw [hout]
        simpa using ih

theorem scan_game_args {fs : FSModel} {st : PState} {l : List String} {st1 : PState}
    {l1 : List String} (h : ScanReaches fs st l st1 l1) :
    st1.result.game_args = st.result.game_args := by
  induction h with
  | refl st l => rfl
  | @step st cur rest st2 b st3 l3 hiter htail ih =>
    rw [ih, (iter_next_props hiter).2.1]

theorem loop_dashdash (fs : FSModel) (st : PState) (rest : List String) :
    parseLoop fs st ("--" :: rest) = .returned { st with
      result := { st.result with game_args := st.result.game_args ++ rest },
      out := st.out ++ (if rest.isEmpty then
        [OutEvent.msg "Warning: -- is set, but no game arguments are added!\n"] else []) } := by
  cases rest <;> simp [parseLoop, parseIter, parseTail, argMapFind, tailToIter, pushOut]

theorem loop_game_args_no_dashdash (fs : FSModel) :
    ∀ (l : List String) (st : PState),
    (∀ st1 rest1, ¬ ScanReaches fs st l st1 ("--" :: rest1)) →
    (outcomeState (parseLoop fs st l)).result.game_args = st.result.game_args := by
  suffices H : ∀ (n : Nat) (l : List String) (st : PState), l.length ≤ n →
      (∀ st1 rest1, ¬ ScanReaches fs st l st1 ("--" :: rest1)) →
      (outcomeState (parseLoop fs st l)).result.game_args = st.result.game_args by
    exact fun l st h => H l.length l st le_rfl h
  intro n
  induction n with
  | zero =>
    intro l st hlen h
    have hl : l = [] := List.eq_nil_of_length_eq_zero (Nat.le_zero.mp hlen)
    subst hl
    simp [parseLoop, outcomeState]
  | succ n ih =>
    intro l st hlen h
    cases l with
    | nil => simp [parseLoop, outcomeState]
    | cons cur rest =>
      cases hiter : parseIter fs st cur rest with
      | halted c st2 =>
        have hout : parseLoop fs st (cur :: rest) = .exited c st2 := by
          simp [parseLoop, hiter]
        rw [hout]
        exact (iter_halted_props hiter).1
      | broke st2 =>
        exfalso
        have hcur := (iter_broke_props hiter).1
        subst hcur
        exact h st rest (ScanReaches.refl st _)
      | next st2 b =>
        have hprops := iter_next_props hiter
        have hreach2 : ∀ st1 rest1,
            ¬ ScanReaches fs st2 (if b then rest.tail else rest) st1 ("--" :: rest1) := by
          intro st1 rest1 hr
          exact h st1 rest1 (ScanReaches.step hiter hr)
        cases b with
        | false =>
          have hout : parseLoop fs st (cur :: rest) = parseLoop fs st2 rest := by
            simp [parseLoop, hiter]
          rw [hout]
          have hlen2 : rest.length ≤ n := by
            simp at hlen
            omega
          rw [ih rest st2 hlen2 (by simpa using hreach2), hprops.2.1]
        | true =>
          cases rest with
          | nil => exact absurd rfl (hprops.1 rfl)
          | cons r rest2 =>
            have hout : parseLoop fs st (cur :: r :: rest2) = parseLoop fs st2 rest2 := by
              simp [parseLoop, hiter]
            rw [hout]
            have hlen2 : rest2.length ≤ n := by
              simp at hlen
              omega
            rw [ih rest2 st2 hlen2 (by simpa using hreach2), hprops.2.1]

theorem loop_returned_inv (fs : FSModel) :
    ∀ (l : List String) (st st2 : PState),
    parseLoop fs st l = .returned st2 →
    st.result.has_game_argument = st.result.game_path.isSome →
    st2.result.has_game_argument = st2.result.game_path.isSome := by
  suffices H : ∀ (n : Nat) (l : List String) (st st2 : PState), l.length ≤ n →
      parseLoop fs st l = .returned st2 →
      st.result.has_game_argument = st.result.game_path.isSome →
      st2.result.has_game_argument = st2.result.game_path.isSome by
    exact fun l st st2 h hinv => H l.length l st st2 le_rfl h hinv
  intro n
  induction n with
  | zero =>
    intro l st st2 hlen hret hinv
    have hl : l = [] := List.eq_nil_of_length_eq_zero (Nat.le_zero.mp hlen)
    subst hl
    simp [parseLoop] at hret
    subst hret
    exact hinv
  | succ n ih =>
    intro l st st2 hlen hret hinv
    cases l with
    | nil =>
      simp [parseLoop] at hret
      subst hret
      exact hinv
    | cons cur rest =>
      cases hiter : parseIter fs st cur rest with
      | halted c st3 =>
        have hout : parseLoop fs st (cur :: rest) = .exited c st3 := by
          simp [parseLoop, hiter]
        rw [hout] at hret
        cases hret
      | broke st3 =>
        have hout : parseLoop fs st (cur :: rest) = .returned st3 := by
          simp [parseLoop, hiter]
        rw [hout] at hret
        cases hret
        have hp := iter_broke_props hiter
        rw [hp.2.2.1, hp.2.2.2]
        exact hinv
      | next st3 b =>
        have hprops := iter_next_props hiter
        have hinv3 : st3.result.has_game_argument = st3.result.game_path.isSome := by
          rcases hprops.2.2 with ⟨_, ha, hb⟩ | ⟨ha, hb⟩
          · rw [ha, hb]; exact hinv
          · rw [ha, hb]
        cases b with
        | false =>
          have hout : parseLoop fs st (cur :: rest) = parseLoop fs st3 rest := by
            simp [parseLoop, hiter]
          rw [hout] at hret
          have hlen2 : rest.length ≤ n := by
            simp at hlen
            omega
          exact ih rest st3 st2 hlen2 hret hinv3
        | true =>
          cases rest with
          | nil => exact absurd rfl (hprops.1 rfl)
          | cons r rest2 =>
            have hout : parseLoop fs st (cur :: r :: rest2) = parseLoop fs st3 rest2 := by
              simp [parseLoop, hiter]
            rw [hout] at hret
            have hlen2 : rest2.length ≤ n := by
              simp at hlen
              omega
            exact ih rest2 st3 st2 hlen2 hret hinv3

/-- Claim C1 (code-bug record): the help flags are registered in arg_map with a
callback that prints the usage text and exits 0, but the dispatch condition in
Parse explicitly excludes "-h" and "--help", so the callback is dead code: a
help flag falls through to the unknown-argument warning, and Parse returns
instead of terminating the process with exit code 0 as the spec claims. -/
theorem c1_help_flag_dead :
    argMapFind "-h" = some .helpEff ∧ argMapFind "--help" = some .helpEff
  ∧ applyMapEffect .helpEff initPState = .exitNow 0 (pushOut initPState .helpText)
  ∧ (∀ fs : FSModel, parseRun fs ["shadps4", "-h"] =
      .returned (pushOut initPState (.msg "Unknown argument: -h, see --help for info.\n")))
  ∧ (∀ fs : FSModel, parseRun fs ["shadps4", "--help"] =
      .returned (pushOut initPState (.msg "Unknown argument: --help, see --help for info.\n"))) := by
  refine ⟨by decide, by decide, rfl, ?_, ?_⟩ <;> intro fs <;>
    simp [parseRun, parseLoop, parseIter, parseTail, tailToIter, argMapFind,
      legacyFollowedByDashDash, pushOut,
      show firstCharDash "-h" = true from by decide,
      show firstCharDash "--help" = true from by decide]

/-- Claim C2 counterexample: on the token sequence
["game.elf", "--", "--flag", "value"] after the program name, Parse does NOT
set game_path to "game.elf" with has_game_argument true — positional inference
fires only for the final token, and "game.elf" is not final here. -/
theorem c2_counterexample :
    ¬ ((outcomeState (parseRun noFS ["shadps4", "game.elf", "--", "--flag", "value"])).result.game_path
         = some "game.elf"
       ∧ (outcomeState (parseRun noFS ["shadps4", "game.elf", "--", "--flag", "value"])).result.has_game_argument
         = true) := by
  decide

/-- Claim C2 (amended): parsing ["game.elf", "--", "--flag", "value"] yields an
unknown-argument warning for "game.elf", has_game_argument = false, game_path
unset, and game_args = ["--flag", "value"]; in general a bare token (no
leading dash) is treated as the game path exactly when it is the final token
and has_game_argument is still false, while a non-final token not equal to
"--" that reaches the tail branches only produces the unknown-argument
warning. -/
theorem c2_trailing_positional :
    (parseRun noFS ["shadps4", "game.elf", "--", "--flag", "value"] =
      .returned { initPState with
        result := { initPState.result with game_args := ["--flag", "value"] },
        out := [.msg "Unknown argument: game.elf, see --help for info.\n"] })
  ∧ (∀ (st : PState) (cur : String), firstCharDash cur = false →
       st.result.has_game_argument = false →
       parseTail st cur [] = .cont { st with result :=
         { st.result with game_path := some cur, has_game_argument := true } })
  ∧ (∀ (st : PState) (cur : String) (r : String) (rest2 : List String), cur ≠ "--" →
       st.result.has_game_argument = false →
       parseTail st cur (r :: rest2) =
         .cont (pushOut st (.msg ("Unknown argument: " ++ cur ++ ", see --help for info.\n")))) := by
  refine ⟨by decide, ?_, ?_⟩
  · intro st cur h1 h2
    have hne : cur ≠ "--" := by
      intro he
      subst he
      exact absurd h1 (by decide)
    simp [parseTail, legacyFollowedByDashDash, hne, h1, h2]
  · intro st cur r rest2 hne h2
    simp [parseTail, hne]

/-- Witness for the amended claim C2 at the concrete token "game.elf". -/
theorem c2_trailing_positional_witness :
    (firstCharDash "game.elf" = false ∧ initPState.result.has_game_argument = false ∧
      parseTail initPState "game.elf" [] = .cont { initPState with result :=
        { initPState.result with game_path := some "game.elf", has_game_argument := true } }) :=
  ⟨by decide, rfl, c2_trailing_positional.2.1 initPState "game.elf" (by decide) rfl⟩

/-- Claim C3: whenever the scan reaches the literal token "--" with rest1 the
tokens after it, Parse returns (does not exit) and the returned game_args is
exactly rest1, in order and unmodified; and whenever the scan never reaches a
"--" token, game_args of the final state is empty — game_args is populated
only by the "--" mechanism. -/
theorem c3_game_args_separator :
    (∀ (fs : FSModel) (argv : List String) (st1 : PState) (rest1 : List String),
       ScanReaches fs initPState argv.tail st1 ("--" :: rest1) →
       (parseRun fs argv).isReturned = true ∧
       (outcomeState (parseRun fs argv)).result.game_args = rest1)
  ∧ (∀ (fs : FSModel) (argv : List String),
       (∀ st1 rest1, ¬ ScanReaches fs initPState argv.tail st1 ("--" :: rest1)) →
       (outcomeState (parseRun fs argv)).result.game_args = []) := by
  constructor
  · intro fs argv st1 rest1 hreach
    have hne : argv.length ≠ 1 := by
      intro h1
      obtain ⟨a, ha⟩ := List.length_eq_one.mp h1
      subst ha
      exact absurd (scan_nil hreach).2 (by simp)
    have hrun : parseRun fs argv = parseLoop fs initPState argv.tail := by
      simp [parseRun, hne]
    have heval := scan_eval hreach
    have hddash := loop_dashdash fs st1 rest1
    have hga : st1.result.game_args = [] := by
      have := scan_game_args hreach
      simpa [initPState] using this
    rw [hrun, heval, hddash]
    simp [outcomeState, ParseOutcome.isReturned, hga]
  · intro fs argv h
    by_cases h1 : argv.length = 1
    · simp [parseRun, h1, outcomeState, pushOut, initPState]
    · have hrun : parseRun fs argv = parseLoop fs initPState argv.tail := by
        simp [parseRun, h1]
      rw [hrun]
      have := loop_game_args_no_dashdash fs argv.tail initPState h
      simpa [initPState] using this

/-- Witness for claim C3 on the concrete token list ["--", "-x", "y"]. -/
theorem c3_game_args_separator_witness :
    ((parseRun noFS ["shadps4", "--", "-x", "y"]).isReturned = true ∧
     (outcomeState (parseRun noFS ["shadps4", "--", "-x", "y"])).result.game_args = ["-x", "y"]) :=
  c3_game_args_separator.1 noFS ["shadps4", "--", "-x", "y"] initPState ["-x", "y"]
    (ScanReaches.refl initPState ["--", "-x", "y"])

/-- Claim C8: on every token sequence for which Parse returns (the process is
not terminated), the returned ParsedArgs satisfies the invariant
has_game_argument = game_path.isSome: the flag is true exactly when a game
path was assigned during the scan. -/
theorem c8_invariant (fs : FSModel) (argv : List String) (st2 : PState)
    (h : parseRun fs argv = .returned st2) :
    st2.result.has_game_argument = st2.result.game_path.isSome := by
  unfold parseRun at h
  split at h
  · cases h
  · exact loop_returned_inv fs argv.tail initPState st2 h rfl

/-- Witness for claim C8 on the concrete token list ["game.elf"]. -/
theorem c8_invariant_witness :
    ({ initPState with result := { initPState.result with
        has_game_argument := true, game_path := some "game.elf" } } : PState).result.has_game_argument
      = ({ initPState with result := { initPState.result with
        has_game_argument := true, game_path := some "game.elf" } } : PState).result.game_path.isSome :=
  c8_invariant noFS ["shadps4", "game.elf"]
    { initPState with result := { initPState.result with
        has_game_argument := true, game_path := some "game.elf" } } (by decide)

/-- Claim C9: the legacy inference branch condition — a token at the last
index whose successor token exists and is "--" — can never hold, because
having a successor contradicts being last (rest is empty exactly when the
current token is last); consequently parseTail coincides everywhere with the
variant that keeps only the reachable trailing-bare-token rule. -/
theorem c9_legacy_unreachable :
    (∀ (rest : List String), rest.isEmpty = true → legacyFollowedByDashDash rest = false)
  ∧ (∀ (st : PState) (cur : String) (rest : List String),
       parseTail st cur rest = parseTailReachable st cur rest) := by
  constructor
  · intro rest h
    cases rest with
    | nil => rfl
    | cons a l => simp at h
  · intro st cur rest
    cases rest <;> simp [parseTail, parseTailReachable, legacyFollowedByDashDash]

/-- Witness for claim C9 at the empty remaining-token list. -/
theorem c9_legacy_unreachable_witness :
    (([] : List String).isEmpty = true ∧ legacyFollowedByDashDash [] = false ∧
     parseTail initPState "game.elf" [] = parseTailReachable initPState "game.elf" []) :=
  ⟨rfl, c9_legacy_unreachable.1 [] rfl, c9_legacy_unreachable.2 initPState "game.elf" []⟩

/-- Claim C6 counterexample: the value "12abc" is not a base-10 integer, yet
--wait-for-pid accepts it via std::stoi (which parses the longest numeric
prefix), sets wait_pid = 12, and Parse returns normally — so "wait_pid is set
iff the value is a base-10 integer" fails on the code. -/
theorem c6_counterexample :
    parseRun noFS ["shadps4", "--wait-for-pid", "12abc"] =
      .returned { initPState with result := { initPState.result with wait_pid := some 12 } } ∧
    isBase10Integer "12abc" = false := by
  constructor <;> decide

/-- Claim C6 (amended): wait_pid is set if and only if std::stoi accepts the
value (optional leading whitespace, optional sign, at least one decimal
digit, result within int range — the longest numeric prefix is taken, and
trailing garbage is ignored); when stoi rejects the value Parse prints the
invalid-PID error and terminates with exit code 1, leaving wait_pid unset. -/
theorem c6_wait_pid_stoi (fs : FSModel) (v : String) :
    (∀ n : Int, stoi v = some n →
       parseRun fs ["shadps4", "--wait-for-pid", v] =
         .returned { initPState with result := { initPState.result with wait_pid := some n } })
  ∧ (stoi v = none →
       parseRun fs ["shadps4", "--wait-for-pid", v] =
         .exited 1 (pushOut initPState (.msg "Error: Invalid PID argument\n")) ∧
       (pushOut initPState (.msg "Error: Invalid PID argument\n")).result.wait_pid = none) := by
  constructor
  · intro n hn
    simp [parseRun, parseLoop, parseIter, hn, initPState]
  · intro hn
    refine ⟨?_, rfl⟩
    simp [parseRun, parseLoop, parseIter, hn]

/-- Witness for the amended claim C6 at the concrete values "42" and "abc". -/
theorem c6_wait_pid_stoi_witness :
    (stoi "42" = some 42 ∧
      parseRun noFS ["shadps4", "--wait-for-pid", "42"] =
        .returned { initPState with result := { initPState.result with wait_pid := some 42 } }) ∧
    (stoi "abc" = none ∧
      parseRun noFS ["shadps4", "--wait-for-pid", "abc"] =
        .exited 1 (pushOut initPState (.msg "Error: Invalid PID argument\n"))) :=
  ⟨⟨by decide, (c6_wait_pid_stoi noFS "42").1 42 (by decide)⟩,
   ⟨by decide, ((c6_wait_pid_stoi noFS "abc").2 (by decide)).1⟩⟩

/-- Claim C7: ParseFullscreenParam accepts exactly the case-sensitive literals
"true" and "false", and the -f / --fullscreen flag in Parse sets the
fullscreen state for exactly those two values, terminating the process with
exit code 1 and an invalid-argument error for every other value. -/
theorem c7_fullscreen_literals :
    (∀ v : String, (ParseFullscreenParam v = some true ↔ v = "true") ∧
                   (ParseFullscreenParam v = some false ↔ v = "false") ∧
                   (ParseFullscreenParam v = none ↔ (v ≠ "true" ∧ v ≠ "false")))
  ∧ (∀ (fs : FSModel) (flag : String), (flag = "-f" ∨ flag = "--fullscreen") →
       (parseRun fs ["shadps4", flag, "true"] =
          .returned { initPState with env := { initPState.env with is_fullscreen := some true } })
     ∧ (parseRun fs ["shadps4", flag, "false"] =
          .returned { initPState with env := { initPState.env with is_fullscreen := some false } })
     ∧ (∀ v : String, v ≠ "true" → v ≠ "false" →
          parseRun fs ["shadps4", flag, v] =
            .exited 1 (pushOut initPState
              (.msg ("Error: Invalid argument for " ++ flag ++ ". Use \x27true\x27 or \x27false\x27.\n"))))) := by
  constructor
  · intro v
    refine ⟨?_, ?_, ?_⟩ <;> unfold ParseFullscreenParam <;> split <;> simp_all
  · rintro fs flag (rfl | rfl) <;>
      refine ⟨by simp [parseRun, parseLoop, parseIter, initPState],
              by simp [parseRun, parseLoop, parseIter, initPState], ?_⟩ <;>
    · intro v hv1 hv2
      simp [parseRun, parseLoop, parseIter, hv1, hv2]

/-- Witness for claim C7 at the concrete values "true" and "maybe". -/
theorem c7_fullscreen_literals_witness :
    (ParseFullscreenParam "maybe" = none ∧ ("maybe" ≠ "true" ∧ "maybe" ≠ "false")) ∧
    (parseRun noFS ["shadps4", "--fullscreen", "true"] =
       .returned { initPState with env := { initPState.env with is_fullscreen := some true } }) ∧
    (parseRun noFS ["shadps4", "--fullscreen", "maybe"] =
       .exited 1 (pushOut initPState
         (.msg ("Error: Invalid argument for " ++ "--fullscreen" ++ ". Use \x27true\x27 or \x27false\x27.\n")))) :=
  ⟨⟨(c7_fullscreen_literals.1 "maybe").2.2.mpr ⟨by decide, by decide⟩, by decide, by decide⟩,
   (c7_fullscreen_literals.2 noFS "--fullscreen" (Or.inr rfl)).1,
   (c7_fullscreen_literals.2 noFS "--fullscreen" (Or.inr rfl)).2.2 "maybe" (by decide) (by decide)⟩

/-- Claim C4: the scan depth bound is 5; when the raw identifier denotes an
existing filesystem entry, ResolveGamePath returns it unchanged for every
search oracle and directory list (no search is performed); otherwise the
install directories are consulted in order: a directory whose depth-5 scan
matches determines the result no matter what later directories would return,
and a non-matching directory defers to the rest of the list. -/
theorem c4_resolve_game_path :
    max_depth = 5
  ∧ (∀ (fs : FSModel) (find : String → String → Nat → Option String) (dirs : List String)
       (raw : String), fs.fexists raw = true → ResolveGamePath fs find dirs raw = raw)
  ∧ (∀ (fs : FSModel) (find : String → String → Nat → Option String) (d : String)
       (rest : List String) (raw p : String), fs.fexists raw = false →
       find d raw max_depth = some p → ResolveGamePath fs find (d :: rest) raw = p)
  ∧ (∀ (fs : FSModel) (find : String → String → Nat → Option String) (d : String)
       (rest : List String) (raw : String), fs.fexists raw = false →
       find d raw max_depth = none →
       ResolveGamePath fs find (d :: rest) raw = ResolveGamePath fs find rest raw) := by
  refine ⟨rfl, ?_, ?_, ?_⟩
  · intro fs find dirs raw h
    simp [ResolveGamePath, h]
  · intro fs find d rest raw p hex hfind
    simp [ResolveGamePath, searchInstallDirs, hex, hfind]
  · intro fs find d rest raw hex hfind
    simp [ResolveGamePath, searchInstallDirs, hex, hfind]

/-- Witness for claim C4 on concrete oracles and directory lists. -/
theorem c4_resolve_game_path_witness :
    ((FSModel.mk (fun s => s == "game.elf") (fun _ => false) (fun _ => false)).fexists "game.elf" = true ∧
     ResolveGamePath (FSModel.mk (fun s => s == "game.elf") (fun _ => false) (fun _ => false))
       (fun _ _ _ => some "other") ["d1"] "game.elf" = "game.elf") ∧
    (noFS.fexists "CUSA00001" = false ∧
     (fun d (_ : String) (_ : Nat) => if d == "d1" then some "d1/eboot.bin" else none) "d1" "CUSA00001" max_depth
       = some "d1/eboot.bin" ∧
     ResolveGamePath noFS (fun d _ _ => if d == "d1" then some "d1/eboot.bin" else none)
       ["d1", "d2"] "CUSA00001" = "d1/eboot.bin") ∧
    (ResolveGamePath noFS (fun d _ _ => if d == "d2" then some "d2/eboot.bin" else none)
       ["d1", "d2"] "CUSA00001" =
     ResolveGamePath noFS (fun d _ _ => if d == "d2" then some "d2/eboot.bin" else none)
       ["d2"] "CUSA00001") :=
  ⟨⟨by decide,
    c4_resolve_game_path.2.1 _ (fun _ _ _ => some "other") ["d1"] "game.elf" (by decide)⟩,
   ⟨by decide, by decide,
    c4_resolve_game_path.2.2.1 noFS _ "d1" ["d2"] "CUSA00001" "d1/eboot.bin" (by decide) (by decide)⟩,
   c4_resolve_game_path.2.2.2 noFS _ "d1" ["d2"] "CUSA00001" (by decide) (by decide)⟩

theorem searchInstallDirs_none {find : String → String → Nat → Option String} {raw : String} :
    ∀ {dirs : List String}, (∀ d ∈ dirs, find d raw max_depth = none) →
    searchInstallDirs find dirs raw = none := by
  intro dirs
  induction dirs with
  | nil => intro _; rfl
  | cons d rest ih =>
    intro h
    simp [searchInstallDirs, h d (by simp)]
    exact ih (fun d2 hd2 => h d2 (by simp [hd2]))

/-- Claim C10: when the raw identifier denotes no existing filesystem entry and
no install directory yields a match, ResolveGamePath returns the raw
identifier itself (there is no distinct NotFound value in its return type),
and the caller in main detects the failure by re-checking existence of the
returned path, reporting exit code 1 with an error message referencing the
original identifier. -/
theorem c10_notfound_reported (fs : FSModel) (find : String → String → Nat → Option String)
    (dirs : List String) (raw : String)
    (hex : fs.fexists raw = false)
    (hall : ∀ d ∈ dirs, find d raw max_depth = none) :
    ResolveGamePath fs find dirs raw = raw ∧
    mainResolveAndCheck fs find dirs raw =
      .error (1, "Error: Game ID or file path not found: " ++ raw ++ "\n") := by
  have hres : ResolveGamePath fs find dirs raw = raw := by
    simp [ResolveGamePath, hex, searchInstallDirs_none hall]
  refine ⟨hres, ?_⟩
  simp [mainResolveAndCheck, hres, hex]

/-- Witness for claim C10 on a concrete unmatched identifier. -/
theorem c10_notfound_reported_witness :
    (noFS.fexists "CUSA99999" = false ∧
     ResolveGamePath noFS (fun _ _ _ => none) ["d1"] "CUSA99999" = "CUSA99999" ∧
     mainResolveAndCheck noFS (fun _ _ _ => none) ["d1"] "CUSA99999" =
       .error (1, "Error: Game ID or file path not found: " ++ "CUSA99999" ++ "\n")) :=
  ⟨by decide,
   (c10_notfound_reported noFS (fun _ _ _ => none) ["d1"] "CUSA99999" (by decide)
      (fun _ _ => rfl)).1,
   (c10_notfound_reported noFS (fun _ _ _ => none) ["d1"] "CUSA99999" (by decide)
      (fun _ _ => rfl)).2⟩

/-- Claim C5: with an override folder ResolveGameFolder returns it unchanged;
otherwise it returns the parent directory of the executable path, except
that when the parent folder name ends with "-UPDATE" or "-patch" the name is
truncated at its last hyphen to form a sibling path, which is returned if
and only if it is a directory; the spec scenario MyGame-UPDATE / MyGame is
verified concretely in both directions. -/
theorem c5_resolve_game_folder :
    (∀ (isd : List String → Bool) (file f : List String),
       ResolveGameFolder isd file (some f) = f)
  ∧ (∀ (isd : List String → Bool) (file : List String),
       endsWithStr (((file.dropLast).getLast?).getD "") "-UPDATE" = false →
       endsWithStr (((file.dropLast).getLast?).getD "") "-patch" = false →
       ResolveGameFolder isd file none = file.dropLast)
  ∧ (∀ (isd : List String → Bool) (file : List String),
       (endsWithStr (((file.dropLast).getLast?).getD "") "-UPDATE" = true ∨
        endsWithStr (((file.dropLast).getLast?).getD "") "-patch" = true) →
       (isd (updateSibling file) = true →
          ResolveGameFolder isd file none = updateSibling file)
     ∧ (isd (updateSibling file) = false →
          ResolveGameFolder isd file none = file.dropLast))
  ∧ ResolveGameFolder (fun p => p == ["Games", "MyGame"]) ["Games", "MyGame-UPDATE", "eboot.bin"] none
      = ["Games", "MyGame"]
  ∧ ResolveGameFolder (fun _ => false) ["Games", "MyGame-UPDATE", "eboot.bin"] none
      = ["Games", "MyGame-UPDATE"] := by
  refine ⟨?_, ?_, ?_, by decide, by decide⟩
  · intro isd file f
    rfl
  · intro isd file h1 h2
    simp [ResolveGameFolder, h1, h2]
  · intro isd file h
    constructor
    · intro hd
      rcases h with h | h <;> simp [ResolveGameFolder, updateSibling, h, hd] <;>
        (intro hfd; rw [updateSibling] at hd; simp [hfd] at hd)
    · intro hd
      rcases h with h | h <;> simp [ResolveGameFolder, updateSibling, h, hd] <;>
        (intro hfd; rw [updateSibling] at hd; simp [hfd] at hd)

/-- Witness for claim C5 on the concrete MyGame-UPDATE and Game-patch folders. -/
theorem c5_resolve_game_folder_witness :
    ((endsWithStr "MyGame-UPDATE" "-UPDATE" = true ∨
      endsWithStr "MyGame-UPDATE" "-patch" = true) ∧
     updateSibling ["Games", "MyGame-UPDATE", "eboot.bin"] = ["Games", "MyGame"] ∧
     ResolveGameFolder (fun p => p == ["Games", "MyGame"]) ["Games", "MyGame-UPDATE", "eboot.bin"] none
       = ["Games", "MyGame"] ∧
     ResolveGameFolder (fun _ => false) ["other", "Game-patch", "x"] none = ["other", "Game-patch"]) :=
  ⟨Or.inl (by decide), by decide,
   ((c5_resolve_game_folder.2.2.1 (fun p => p == ["Games", "MyGame"])
       ["Games", "MyGame-UPDATE", "eboot.bin"] (Or.inl (by decide))).1 (by decide)),
   ((c5_resolve_game_folder.2.2.1 (fun _ => false) ["other", "Game-patch", "x"]
       (Or.inr (by decide))).2 rfl)⟩

end ShadPS4
